import Mathlib

/-!
Shallow embedding of the authoring scheduler of the solochain substrate
template, covering the slot backoff and lenience functions
(`consensus/slots/src/lib.rs`), the equivocation detector
(`consensus/micc/src/equivocation.rs`), and the smart event-driven
block-production controller (`consensus/micc-client/src/event_driven.rs`).

Machine integers (`u64` slot numbers, priorities, `usize` counts) are
modelled as `Nat`; Rust `saturating_sub` and `Instant`/`Duration`
subtraction become truncated `Nat` subtraction; `Duration` values are
natural numbers of nanoseconds; the `f64` load and priority factors are
modelled as exact rationals.
-/

namespace Slots

/-- Embeds `slot_lenience_exponential` (consensus/slots/src/lib.rs).
`skipped_slots = slot.saturating_sub(parent_slot + 1)`; `BACKOFF_STEP = 2`,
`BACKOFF_CAP = 7`; the lenience is `1 <<< min (skipped / 2) 7` slot
durations. -/
def slot_lenience_exponential (parent_slot slot duration : Nat) : Option Nat :=
  let skipped_slots := slot - (parent_slot + 1)
  if skipped_slots = 0 then
    none
  else
    let slot_lenience := skipped_slots / 2
    let slot_lenience := min slot_lenience 7
    let slot_lenience := 1 <<< slot_lenience
    some (slot_lenience * duration)

/-- Embeds `slot_lenience_linear` (consensus/slots/src/lib.rs).
`BACKOFF_CAP = 20`. -/
def slot_lenience_linear (parent_slot slot duration : Nat) : Option Nat :=
  let skipped_slots := slot - (parent_slot + 1)
  if skipped_slots = 0 then
    none
  else
    let slot_lenience := min skipped_slots 20
    some (duration * slot_lenience)

/-- Configuration of `BackoffAuthoringOnFinalizedHeadLagging`. -/
structure BackoffConfig where
  max_interval : Nat
  unfinalized_slack : Nat
  authoring_bias : Nat
deriving Repr, DecidableEq

/-- Embeds `BackoffAuthoringOnFinalizedHeadLagging::should_backoff`
(consensus/slots/src/lib.rs). Both `saturating_sub` calls are `Nat`
subtraction and the division is Rust integer division. -/
def should_backoff (cfg : BackoffConfig) (chain_head_number chain_head_slot
    finalized_number slot_now : Nat) : Bool :=
  if slot_now ≤ chain_head_slot then
    false
  else
    let unfinalized_block_length := chain_head_number - finalized_number
    let interval := (unfinalized_block_length - cfg.unfinalized_slack) / cfg.authoring_bias
    let interval := min interval cfg.max_interval
    decide (slot_now ≤ chain_head_slot + interval)

end Slots

namespace Equivocation

/-- Block headers are modelled by their distinguishing content: a block
number and a parent hash. The detector compares header hashes only for
equality and distinct headers are taken to have distinct hashes, so
`Header::hash` is modelled by equality of the headers themselves. -/
structure Header where
  number : Nat
  parent_hash : Nat
deriving Repr, DecidableEq

/-- Authority identities, abstracted to naturals. -/
abbrev AuthorityId := Nat

/-- Embeds `EquivocationProof` (consensus/micc/src/equivocation.rs). -/
structure EquivocationProof where
  slot : Nat
  offender : AuthorityId
  first_header : Header
  second_header : Header
deriving Repr, DecidableEq

/-- Embeds `EquivocationReport`. -/
structure EquivocationReport where
  offender : AuthorityId
  slot : Nat
  block_number : Nat
  session_index : Nat
deriving Repr, DecidableEq

/-- Embeds `EquivocationConfig`. -/
structure EquivocationConfig where
  enable_slashing : Bool
  grace_period : Nat
  max_reports_per_session : Nat
  slash_percentage : Nat
deriving Repr, DecidableEq

/-- Embeds `SessionEquivocations`; both `BoundedVec`s have capacity 100,
enforced in the operations below. -/
structure SessionEquivocations where
  reports : List EquivocationReport
  offender_counts : List (AuthorityId × Nat)
deriving Repr, DecidableEq

/-- The `SessionEquivocations::default()` value. -/
def emptySession : SessionEquivocations :=
  { reports := [], offender_counts := [] }

/-- Embeds the `EquivocationDetector` state. The
`BTreeMap<Slot, Vec<(Header, AuthorityId)>>` is modelled as an association
list sorted by strictly increasing slot key, matching the ascending key
iteration order of a `BTreeMap`. -/
structure EquivocationDetector where
  slot_blocks : List (Nat × List (Header × AuthorityId))
  session_equivocations : SessionEquivocations
  config : EquivocationConfig
deriving Repr, DecidableEq

/-- Embeds `EquivocationDetector::new`. -/
def EquivocationDetector.new (config : EquivocationConfig) : EquivocationDetector :=
  { slot_blocks := [], session_equivocations := emptySession, config := config }

/-- The list stored for a slot key, `[]` when the key is absent: the view
taken by `entry(slot).or_insert_with(Vec::new)`. -/
def slotList (m : List (Nat × List (Header × AuthorityId))) (s : Nat) :
    List (Header × AuthorityId) :=
  match m with
  | [] => []
  | (k, v) :: rest => if k = s then v else slotList rest s

/-- Insert key `k` with value `v`, replacing an existing binding and
keeping the association list sorted by key. -/
def insertSorted (m : List (Nat × List (Header × AuthorityId))) (k : Nat)
    (v : List (Header × AuthorityId)) : List (Nat × List (Header × AuthorityId)) :=
  match m with
  | [] => [(k, v)]
  | (k0, v0) :: rest =>
    if k < k0 then (k, v) :: (k0, v0) :: rest
    else if k = k0 then (k, v) :: rest
    else (k0, v0) :: insertSorted rest k v

/-- The slot keys of the map, in iteration order. -/
def keysOf (m : List (Nat × List (Header × AuthorityId))) : List Nat :=
  m.map Prod.fst

/-- First conflicting header recorded for author `a`: the scan over
`slot_entry` in `check_block` looking for a different header from the same
author. -/
def findConflict (l : List (Header × AuthorityId)) (h : Header) (a : AuthorityId) :
    Option Header :=
  match l with
  | [] => none
  | (h0, a0) :: rest =>
    if a0 = a ∧ h0 ≠ h then some h0 else findConflict rest h a

/-- Increment the count of the first entry for offender `x`; the returned
flag is the `found` variable of `record_equivocation`. -/
def bumpOffender (l : List (AuthorityId × Nat)) (x : AuthorityId) :
    Bool × List (AuthorityId × Nat) :=
  match l with
  | [] => (false, [])
  | (a, c) :: rest =>
    if a = x then (true, (a, c + 1) :: rest)
    else
      let r := bumpOffender rest x
      (r.1, (a, c) :: r.2)

/-- Embeds `EquivocationDetector::record_equivocation`. When the report
list has already reached `max_reports_per_session` the function returns
early and changes nothing; otherwise the first matching offender count is
incremented, a new offender entry is appended when absent and below the
capacity of 100, and the report is appended via `try_push`, which fails
silently at capacity 100. -/
def recordEquivocation (se : SessionEquivocations) (cfg : EquivocationConfig)
    (report : EquivocationReport) : SessionEquivocations :=
  if cfg.max_reports_per_session ≤ se.reports.length then
    se
  else
    let r := bumpOffender se.offender_counts report.offender
    let counts :=
      if r.1 = false ∧ se.offender_counts.length < 100 then
        r.2 ++ [(report.offender, 1)]
      else r.2
    let reports :=
      if se.reports.length < 100 then se.reports ++ [report] else se.reports
    { reports := reports, offender_counts := counts }

/-- Embeds `EquivocationDetector::check_block`. On the equivocation path
the map is unchanged (the scanned entry necessarily exists, so the
`or_insert` is a no-op, and the function returns before the push); on the
no-conflict path the pair is pushed onto the slot's list and, when the map
then holds more than 1000 slots, the smallest key — `keys().next()` of the
`BTreeMap`, i.e. the head of the sorted association list — is removed.
The report's `block_number` is the header number saturated into `u32`. -/
def EquivocationDetector.check_block (d : EquivocationDetector) (header : Header)
    (slot : Nat) (author : AuthorityId) (session_index : Nat) :
    Option EquivocationProof × EquivocationDetector :=
  let slot_entry := slotList d.slot_blocks slot
  match findConflict slot_entry header author with
  | some existing_header =>
    let proof : EquivocationProof :=
      { slot := slot, offender := author, first_header := existing_header,
        second_header := header }
    let report : EquivocationReport :=
      { offender := author, slot := slot,
        block_number := min header.number 4294967295,
        session_index := session_index }
    (some proof,
      { d with session_equivocations :=
          recordEquivocation d.session_equivocations d.config report })
  | none =>
    let m1 := insertSorted d.slot_blocks slot (slot_entry ++ [(header, author)])
    let m2 := if 1000 < m1.length then m1.tail else m1
    (none, { d with slot_blocks := m2 })

/-- Embeds `EquivocationDetector::new_session`. -/
def EquivocationDetector.new_session (d : EquivocationDetector) : EquivocationDetector :=
  { d with slot_blocks := [], session_equivocations := emptySession }

/-- Embeds `EquivocationDetector::is_authority_slashable`. -/
def EquivocationDetector.is_authority_slashable (d : EquivocationDetector)
    (authority : AuthorityId) : Bool :=
  match d.session_equivocations.offender_counts.find? (fun p => p.1 = authority) with
  | some p => d.config.enable_slashing && decide (0 < p.2)
  | none => false

end Equivocation

namespace EventDriven

/-- Transaction priorities (`u64` in the source). -/
abbrev TransactionPriority := Nat

/-- Embeds `CollectionConfig` (consensus/micc-client/src/event_driven.rs).
Durations are nanoseconds. -/
structure CollectionConfig where
  min_collection_time : Nat
  max_collection_time : Nat
  max_batch_size : Nat
  priority_threshold : TransactionPriority
  network_load_factor : ℚ
  enable_adaptive_timing : Bool
deriving Repr, DecidableEq

/-- Embeds `EventDrivenConfig`. -/
structure EventDrivenConfig where
  collection : CollectionConfig
  empty_block_interval_ms : Option Nat
  enable_priority_fast_track : Bool
  transaction_rate_history_size : Nat
deriving Repr, DecidableEq

/-- Embeds `NetworkLoadTracker`; timestamps are nanoseconds since an
arbitrary epoch. -/
structure NetworkLoadTracker where
  transaction_history : List Nat
  max_history_size : Nat
  current_tps : ℚ
  last_calculation : Nat
deriving Repr, DecidableEq

/-- Embeds `NetworkLoadTracker::new`; `Instant::now()` is the explicit
`now` argument. -/
def NetworkLoadTracker.new (max_history_size : Nat) (now : Nat) : NetworkLoadTracker :=
  { transaction_history := [], max_history_size := max_history_size,
    current_tps := 0, last_calculation := now }

/-- Embeds `NetworkLoadTracker::calculate_tps`: zero below two samples or
when no time elapsed since the oldest sample, otherwise count divided by
the elapsed seconds. -/
def calculate_tps (hist : List Nat) (now : Nat) : ℚ :=
  if hist.length < 2 then 0
  else
    let oldest := hist.headD 0
    let dur : ℚ := ((now - oldest : Nat) : ℚ) / 1000000000
    if 0 < dur then (hist.length : ℚ) / dur else 0

/-- Embeds `NetworkLoadTracker::record_transaction`: push `now`, retain
entries newer than ten seconds ago, drop the front beyond
`max_history_size`, and recompute the cached TPS only when at least 500ms
passed since the last computation. -/
def NetworkLoadTracker.record_transaction (t : NetworkLoadTracker) (now : Nat) :
    ℚ × NetworkLoadTracker :=
  let cutoff := now - 10000000000
  let hist1 := (t.transaction_history ++ [now]).filter (fun ts => cutoff < ts)
  let hist2 :=
    if t.max_history_size < hist1.length then
      hist1.drop (hist1.length - t.max_history_size)
    else hist1
  if 500000000 < now - t.last_calculation then
    let tps := calculate_tps hist2 now
    (tps, { t with transaction_history := hist2, current_tps := tps,
                   last_calculation := now })
  else
    (t.current_tps, { t with transaction_history := hist2 })

/-- Embeds `SmartCollectionWindow`; the tokio `Sleep` timer is modelled by
the instant `timer_deadline` at which it fires. -/
structure SmartCollectionWindow where
  started_at : Nat
  duration : Nat
  initial_tx_count : Nat
  highest_priority : Option TransactionPriority
  network_load : ℚ
  timer_deadline : Nat
  priority_triggered : Bool
deriving Repr, DecidableEq

/-- Pool events (`PoolEvent`); transaction hashes are abstracted to
naturals. -/
inductive PoolEvent where
  | TransactionAdded (hash : Nat)
  | HighPriorityTransactionAdded (hash : Nat) (priority : TransactionPriority)
  | TransactionRemoved (hash : Nat)
  | PoolReady (count : Nat) (highest_priority : Option TransactionPriority)
  | PoolEmpty
  | NetworkLoad (tps : ℚ)
deriving Repr, DecidableEq

/-- Embeds `BlockProductionTrigger`. -/
inductive BlockProductionTrigger where
  | None
  | StartCollectionWindow
  | ProduceImmediately
  | CollectionWindowExpired
  | EmptyBlockTimer
deriving Repr, DecidableEq

/-- Rust `Ord::clamp` as used on `Duration` values (the source always
calls it with `lo ≤ hi`, the case where the Rust function does not
panic). -/
def rustClamp (x lo hi : Nat) : Nat :=
  if x < lo then lo else if hi < x then hi else x

/-- Nanoseconds to whole milliseconds: `Duration::as_millis`. -/
def millisOf (d : Nat) : Nat := d / 1000000

/-- Milliseconds to nanoseconds: `Duration::from_millis`. -/
def fromMillis (m : Nat) : Nat := m * 1000000

/-- Embeds `SmartCollectionWindow::calculate_adaptive_duration`. The `f64`
factors are exact rationals and the final `as u64` cast of the
non-negative product is the floor. -/
def calculate_adaptive_duration (config : CollectionConfig) (network_load : ℚ)
    (highest_priority : Option TransactionPriority) (priority_triggered : Bool) : Nat :=
  let base_duration :=
    if priority_triggered then config.min_collection_time
    else fromMillis
      ((millisOf config.min_collection_time + millisOf config.max_collection_time) / 2)
  if config.enable_adaptive_timing = false then
    rustClamp base_duration config.min_collection_time config.max_collection_time
  else
    let load_factor : ℚ :=
      if 5 < network_load then 7/10
      else if 2 < network_load then 85/100
      else if network_load < 1/2 then 13/10
      else 1
    let priority_factor : ℚ :=
      match highest_priority with
      | some priority =>
        if config.priority_threshold ≤ priority then 1/10
        else if config.priority_threshold / 2 < priority then 1/2
        else 1
      | none => 1
    let adjusted_duration :=
      (((base_duration : ℚ) * load_factor * priority_factor).floor).toNat
    rustClamp adjusted_duration config.min_collection_time config.max_collection_time

/-- Embeds `SmartCollectionWindow::new`; `sleep(duration)` arms the timer
to fire `duration` after `now`. -/
def SmartCollectionWindow.new (config : CollectionConfig) (initial_tx_count : Nat)
    (highest_priority : Option TransactionPriority) (network_load : ℚ)
    (priority_triggered : Bool) (now : Nat) : SmartCollectionWindow :=
  let duration := calculate_adaptive_duration config network_load highest_priority
    priority_triggered
  { started_at := now, duration := duration, initial_tx_count := initial_tx_count,
    highest_priority := highest_priority, network_load := network_load,
    timer_deadline := now + duration, priority_triggered := priority_triggered }

/-- Embeds `SmartCollectionWindow::elapsed`. -/
def SmartCollectionWindow.elapsed (w : SmartCollectionWindow) (now : Nat) : Nat :=
  now - w.started_at

/-- Embeds `SmartCollectionWindow::is_expired`: the timer poll is ready
once its deadline is reached. -/
def SmartCollectionWindow.is_expired (w : SmartCollectionWindow) (now : Nat) : Bool :=
  decide (w.timer_deadline ≤ now)

/-- Embeds `SmartCollectionWindow::update_priority`: only a strictly
higher priority than a recorded one replaces it, and only then, when the
new priority reaches the threshold, is the timer rearmed to fire after
`min(remaining, 100ms)`; with no recorded priority the new one is stored
without touching the timer. -/
def SmartCollectionWindow.update_priority (w : SmartCollectionWindow)
    (priority : TransactionPriority) (config : CollectionConfig) (now : Nat) :
    SmartCollectionWindow :=
  match w.highest_priority with
  | some current_priority =>
    if current_priority < priority then
      let w1 := { w with highest_priority := some priority }
      if config.priority_threshold ≤ priority then
        let remaining := w.duration - (w.elapsed now)
        let new_remaining := min remaining 100000000
        { w1 with timer_deadline := now + new_remaining }
      else w1
    else w
  | none => { w with highest_priority := some priority }

/-- Embeds the `SmartEventDrivenController` state. -/
structure SmartEventDrivenController where
  config : EventDrivenConfig
  collection_window : Option SmartCollectionWindow
  empty_block_timer : Option Nat
  pending_transactions : Nat
  last_block_time : Nat
  network_load_tracker : NetworkLoadTracker
deriving Repr, DecidableEq

/-- Embeds `SmartEventDrivenController::new`. -/
def SmartEventDrivenController.new (config : EventDrivenConfig) (now : Nat) :
    SmartEventDrivenController :=
  { config := config,
    collection_window := none,
    empty_block_timer := config.empty_block_interval_ms.map (fun ms => now + fromMillis ms),
    pending_transactions := 0,
    last_block_time := now,
    network_load_tracker := NetworkLoadTracker.new config.transaction_rate_history_size now }

/-- Embeds `SmartEventDrivenController::should_produce_immediately`: large
batch, or a pending priority at the threshold, or an active window whose
elapsed time reached `max_collection_time`. -/
def SmartEventDrivenController.should_produce_immediately
    (c : SmartEventDrivenController) (tx_count : Nat)
    (highest_priority : Option TransactionPriority) (now : Nat) : Bool :=
  decide (c.config.collection.max_batch_size ≤ tx_count) ||
  (match highest_priority with
   | some priority => decide (c.config.collection.priority_threshold ≤ priority)
   | none => false) ||
  (match c.collection_window with
   | some w => decide (c.config.collection.max_collection_time ≤ w.elapsed now)
   | none => false)

/-- Embeds `SmartEventDrivenController::start_collection_window_for_priority`. -/
def SmartEventDrivenController.start_collection_window_for_priority
    (c : SmartEventDrivenController) (priority : TransactionPriority)
    (network_load : ℚ) (now : Nat) :
    BlockProductionTrigger × SmartEventDrivenController :=
  if c.config.collection.priority_threshold ≤ priority then
    (.ProduceImmediately, c)
  else
    let w := SmartCollectionWindow.new c.config.collection c.pending_transactions
      (some priority) network_load true now
    (.StartCollectionWindow, { c with collection_window := some w })

/-- Embeds `SmartEventDrivenController::handle_pool_event`. Each arm first
applies the transaction-rate bookkeeping the source performs, then the
windowing decision. -/
def SmartEventDrivenController.handle_pool_event (c : SmartEventDrivenController)
    (event : PoolEvent) (now : Nat) :
    BlockProductionTrigger × SmartEventDrivenController :=
  match event with
  | .TransactionAdded _ =>
    let r := c.network_load_tracker.record_transaction now
    (.None, { c with network_load_tracker := r.2 })
  | .HighPriorityTransactionAdded _ priority =>
    let r := c.network_load_tracker.record_transaction now
    let c1 := { c with network_load_tracker := r.2 }
    match c1.collection_window with
    | some w =>
      let w1 := w.update_priority priority c1.config.collection now
      let c2 := { c1 with collection_window := some w1 }
      if c2.config.collection.priority_threshold ≤ priority then
        (.ProduceImmediately, { c2 with collection_window := none })
      else
        (.None, c2)
    | none => c1.start_collection_window_for_priority priority r.1 now
  | .PoolReady count highest_priority =>
    let r := c.network_load_tracker.record_transaction now
    let c1 := { c with network_load_tracker := r.2, pending_transactions := count }
    if c1.collection_window.isNone && decide (0 < count) then
      let priority_triggered :=
        match highest_priority with
        | some p => decide (c1.config.collection.priority_threshold / 2 ≤ p)
        | none => false
      let w := SmartCollectionWindow.new c1.config.collection count highest_priority
        r.1 priority_triggered now
      (.StartCollectionWindow, { c1 with collection_window := some w })
    else if c1.should_produce_immediately count highest_priority now then
      (.ProduceImmediately, { c1 with collection_window := none })
    else
      (.None, c1)
  | .PoolEmpty =>
    (.None, { c with pending_transactions := 0, collection_window := none })
  | .TransactionRemoved _ => (.None, c)
  | .NetworkLoad _ => (.None, c)

/-- Embeds `SmartEventDrivenController::check_collection_window`: when the
window's timer has fired the window is dropped, and
`CollectionWindowExpired` is returned exactly when transactions are still
pending. -/
def SmartEventDrivenController.check_collection_window
    (c : SmartEventDrivenController) (now : Nat) :
    BlockProductionTrigger × SmartEventDrivenController :=
  match c.collection_window with
  | some w =>
    if w.is_expired now then
      let c1 := { c with collection_window := none }
      if 0 < c1.pending_transactions then (.CollectionWindowExpired, c1)
      else (.None, c1)
    else (.None, c)
  | none => (.None, c)

/-- Embeds `SmartEventDrivenController::record_block_produced`. -/
def SmartEventDrivenController.record_block_produced
    (c : SmartEventDrivenController) (now : Nat) : SmartEventDrivenController :=
  { c with last_block_time := now, collection_window := none,
           empty_block_timer :=
             c.config.empty_block_interval_ms.map (fun ms => now + fromMillis ms) }

end EventDriven

/-- C2: for all inputs and configurations with `authoring_bias > 0`,
`should_backoff` returns `false` whenever `slot_now ≤ chain_head_slot`,
and otherwise returns `true` iff `slot_now ≤ chain_head_slot + interval`,
where `interval = min max_interval
((chain_head_number ∸ finalized_number ∸ unfinalized_slack) / authoring_bias)`
with `∸` the saturating subtraction. -/
theorem C2_should_backoff_characterisation (cfg : Slots.BackoffConfig)
    (chain_head_number chain_head_slot finalized_number slot_now : Nat)
    (_hbias : 0 < cfg.authoring_bias) :
    (slot_now ≤ chain_head_slot →
      Slots.should_backoff cfg chain_head_number chain_head_slot finalized_number
        slot_now = false) ∧
    (chain_head_slot < slot_now →
      (Slots.should_backoff cfg chain_head_number chain_head_slot finalized_number
          slot_now = true ↔
        slot_now ≤ chain_head_slot +
          min cfg.max_interval
            ((chain_head_number - finalized_number - cfg.unfinalized_slack) /
              cfg.authoring_bias))) := by
  constructor
  · intro h
    simp [Slots.should_backoff, h]
  · intro h
    have h' : ¬ slot_now ≤ chain_head_slot := Nat.not_le.mpr h
    simp [Slots.should_backoff, h', Nat.min_comm]

/-- Witness for C2 at a concrete configuration and input. -/
theorem C2_should_backoff_characterisation_witness :
    0 < (2 : Nat) ∧ Slots.should_backoff ⟨100, 50, 2⟩ 200 10 20 15 = true := by
  have h := C2_should_backoff_characterisation ⟨100, 50, 2⟩ 200 10 20 15 (by decide)
  exact ⟨by decide, (h.2 (by decide)).mpr (by decide)⟩

/-- C3: with `skipped = slot ∸ (parent_slot + 1)` (saturating),
`slot_lenience_exponential` is `none` when `skipped = 0` and
`some (duration * 2 ^ min (skipped / 2) 7)` otherwise, and
`slot_lenience_linear` is `none` when `skipped = 0` and
`some (duration * min skipped 20)` otherwise. -/
theorem C3_slot_lenience (parent_slot slot duration : Nat) :
    (Slots.slot_lenience_exponential parent_slot slot duration =
      if slot - (parent_slot + 1) = 0 then none
      else some (duration * 2 ^ min ((slot - (parent_slot + 1)) / 2) 7)) ∧
    (Slots.slot_lenience_linear parent_slot slot duration =
      if slot - (parent_slot + 1) = 0 then none
      else some (duration * min (slot - (parent_slot + 1)) 20)) := by
  constructor
  · by_cases h : slot - (parent_slot + 1) = 0 <;>
      simp [Slots.slot_lenience_exponential, h, Nat.shiftLeft_eq, Nat.one_mul,
        Nat.mul_comm]
  · by_cases h : slot - (parent_slot + 1) = 0 <;>
      simp [Slots.slot_lenience_linear, h]

/-- C4: on a fresh detector, a first header for a slot passes
(`check_block` returns `none`), a different header for the same slot from
the same author is reported with the proof carrying the slot, offender and
both headers in order; submitting the identical header twice returns
`none` both times. -/
theorem C4_check_block_detects_equivocation (cfg : Equivocation.EquivocationConfig)
    (h1 h2 : Equivocation.Header) (s a sess : Nat) (hne : h1 ≠ h2) :
    (((Equivocation.EquivocationDetector.new cfg).check_block h1 s a sess).1 = none ∧
      ((((Equivocation.EquivocationDetector.new cfg).check_block h1 s a sess).2).check_block
          h2 s a sess).1 =
        some { slot := s, offender := a, first_header := h1, second_header := h2 }) ∧
    (((Equivocation.EquivocationDetector.new cfg).check_block h1 s a sess).1 = none ∧
      ((((Equivocation.EquivocationDetector.new cfg).check_block h1 s a sess).2).check_block
          h1 s a sess).1 = none) := by
  refine ⟨⟨?_, ?_⟩, ?_, ?_⟩ <;>
    simp [Equivocation.EquivocationDetector.check_block,
      Equivocation.EquivocationDetector.new, Equivocation.slotList,
      Equivocation.findConflict, Equivocation.insertSorted, hne]

/-- Witness for C4 on two concrete headers differing only in the parent
hash. -/
theorem C4_check_block_detects_equivocation_witness :
    (⟨1, 1⟩ : Equivocation.Header) ≠ (⟨1, 2⟩ : Equivocation.Header) ∧
    ((((Equivocation.EquivocationDetector.new ⟨false, 100, 10, 1000⟩).check_block
        ⟨1, 1⟩ 42 1 0).2).check_block ⟨1, 2⟩ 42 1 0).1 =
      some { slot := 42, offender := 1, first_header := ⟨1, 1⟩, second_header := ⟨1, 2⟩ } :=
  ⟨by decide,
    (C4_check_block_detects_equivocation ⟨false, 100, 10, 1000⟩ ⟨1, 1⟩ ⟨1, 2⟩ 42 1 0
      (by decide)).1.2⟩

/-- C5 counterexample: with `max_reports_per_session = 1`, after one
recorded equivocation the report list is at its limit; a further
equivocation by the same already-counted offender is detected but the
offender's count stays at 1 instead of being incremented to 2. -/
theorem C5_counterexample :
    (let d1 := ((Equivocation.EquivocationDetector.new ⟨false, 100, 1, 1000⟩).check_block
      ⟨1, 1⟩ 1 7 0).2
    let d2 := (d1.check_block ⟨1, 2⟩ 1 7 0).2
    let r3 := d2.check_block ⟨1, 3⟩ 1 7 0
    d2.session_equivocations.reports.length = d2.config.max_reports_per_session ∧
    r3.1.isSome = true ∧
    d2.session_equivocations.offender_counts = [(7, 1)] ∧
    r3.2.session_equivocations.offender_counts = [(7, 1)]) := by
  decide

/-- The first recorded count for an offender, following the first-match
scan of `record_equivocation`. -/
def Equivocation.firstCount (l : List (Equivocation.AuthorityId × Nat))
    (x : Equivocation.AuthorityId) : Option Nat :=
  match l with
  | [] => none
  | (a, c) :: rest => if a = x then some c else Equivocation.firstCount rest x

theorem Equivocation.bumpOffender_found (l : List (Equivocation.AuthorityId × Nat))
    (x : Equivocation.AuthorityId) :
    (Equivocation.bumpOffender l x).1 = (Equivocation.firstCount l x).isSome := by
  induction l with
  | nil => rfl
  | cons p rest ih =>
    by_cases h : p.1 = x <;>
      simp [Equivocation.bumpOffender, Equivocation.firstCount, h, ih]

theorem Equivocation.firstCount_bumpOffender (l : List (Equivocation.AuthorityId × Nat))
    (x : Equivocation.AuthorityId) :
    Equivocation.firstCount (Equivocation.bumpOffender l x).2 x =
      (Equivocation.firstCount l x).map (· + 1) := by
  induction l with
  | nil => rfl
  | cons p rest ih =>
    by_cases h : p.1 = x <;>
      simp [Equivocation.bumpOffender, Equivocation.firstCount, h, ih]

/-- C5 amended: once the per-session report list has reached
`max_reports_per_session`, `record_equivocation` drops the report entirely
and in particular does not increment the existing offender's count; below
that limit, an equivocation by an already-recorded offender does increment
its count (even when the report list or offender table is at its bounded
capacity of 100, only the appends are dropped). -/
theorem C5_record_equivocation_at_capacity (se : Equivocation.SessionEquivocations)
    (cfg : Equivocation.EquivocationConfig) (report : Equivocation.EquivocationReport) :
    (cfg.max_reports_per_session ≤ se.reports.length →
      Equivocation.recordEquivocation se cfg report = se) ∧
    (se.reports.length < cfg.max_reports_per_session →
      ∀ c, Equivocation.firstCount se.offender_counts report.offender = some c →
        Equivocation.firstCount
          (Equivocation.recordEquivocation se cfg report).offender_counts
          report.offender = some (c + 1)) := by
  constructor
  · intro h
    simp [Equivocation.recordEquivocation, h]
  · intro h c hc
    have h' : ¬ cfg.max_reports_per_session ≤ se.reports.length := Nat.not_le.mpr h
    have hfound : (Equivocation.bumpOffender se.offender_counts report.offender).1 = true := by
      rw [Equivocation.bumpOffender_found, hc]
      rfl
    simp only [Equivocation.recordEquivocation, h', if_false, hfound]
    simp [Equivocation.firstCount_bumpOffender, hc]

/-- Witness for C5's amended statement: first conjunct at a full report
list, second conjunct below the limit with the offender already counted. -/
theorem C5_record_equivocation_at_capacity_witness :
    Equivocation.recordEquivocation ⟨[⟨7, 1, 1, 0⟩], [(7, 1)]⟩ ⟨false, 100, 1, 1000⟩
        ⟨7, 1, 1, 0⟩ = ⟨[⟨7, 1, 1, 0⟩], [(7, 1)]⟩ ∧
    Equivocation.firstCount
      (Equivocation.recordEquivocation ⟨[], [(7, 1)]⟩ ⟨false, 100, 1, 1000⟩
        ⟨7, 1, 1, 0⟩).offender_counts 7 = some 2 := by
  constructor
  · exact (C5_record_equivocation_at_capacity ⟨[⟨7, 1, 1, 0⟩], [(7, 1)]⟩
      ⟨false, 100, 1, 1000⟩ ⟨7, 1, 1, 0⟩).1 (by decide)
  · exact (C5_record_equivocation_at_capacity ⟨[], [(7, 1)]⟩
      ⟨false, 100, 1, 1000⟩ ⟨7, 1, 1, 0⟩).2 (by decide) 1 (by decide)

theorem EventDriven.rustClamp_bounds (x lo hi : Nat) (h : lo ≤ hi) :
    lo ≤ EventDriven.rustClamp x lo hi ∧ EventDriven.rustClamp x lo hi ≤ hi := by
  unfold EventDriven.rustClamp
  split
  · exact ⟨Nat.le_refl lo, h⟩
  · split
    · omega
    · omega

/-- C6: for every collection configuration with
`min_collection_time ≤ max_collection_time` and every combination of
transaction count, priority, network load and priority trigger, the
duration of a newly constructed `SmartCollectionWindow` lies between the
configured minimum and maximum, with adaptive timing enabled or not. -/
theorem C6_adaptive_duration_bounds (config : EventDriven.CollectionConfig)
    (initial_tx_count : Nat) (highest_priority : Option EventDriven.TransactionPriority)
    (network_load : ℚ) (priority_triggered : Bool) (now : Nat)
    (h : config.min_collection_time ≤ config.max_collection_time) :
    config.min_collection_time ≤
      (EventDriven.SmartCollectionWindow.new config initial_tx_count highest_priority
        network_load priority_triggered now).duration ∧
    (EventDriven.SmartCollectionWindow.new config initial_tx_count highest_priority
        network_load priority_triggered now).duration ≤
      config.max_collection_time := by
  have hd : (EventDriven.SmartCollectionWindow.new config initial_tx_count
      highest_priority network_load priority_triggered now).duration =
      EventDriven.calculate_adaptive_duration config network_load highest_priority
        priority_triggered := rfl
  rw [hd]
  unfold EventDriven.calculate_adaptive_duration
  split <;> split <;> exact EventDriven.rustClamp_bounds _ _ _ h

/-- Witness for C6 at the default configuration values. -/
theorem C6_adaptive_duration_bounds_witness :
    (100000000 : Nat) ≤ 400000000 ∧
    ((100000000 : Nat) ≤
      (EventDriven.SmartCollectionWindow.new
        ⟨100000000, 400000000, 1000, 9223372036854775807, 1, true⟩ 10 none 1 false
        0).duration ∧
     (EventDriven.SmartCollectionWindow.new
        ⟨100000000, 400000000, 1000, 9223372036854775807, 1, true⟩ 10 none 1 false
        0).duration ≤ 400000000) :=
  ⟨by decide,
    C6_adaptive_duration_bounds ⟨100000000, 400000000, 1000, 9223372036854775807, 1, true⟩
      10 none 1 false 0 (by decide)⟩

/-- C7 counterexample: a window created from `PoolReady` with no pending
priority (`highest_priority = none`, midpoint duration 250ms) receives a
priority equal to the threshold; the claim demands the remaining time be
shrunk to `min(remaining, 100ms)` and the timer rearmed, but the code's
`none` branch only records the priority and leaves the timer untouched. -/
theorem C7_counterexample :
    (let w1 := EventDriven.SmartCollectionWindow.update_priority
      { started_at := 0, duration := 250000000, initial_tx_count := 5,
        highest_priority := none, network_load := 0, timer_deadline := 250000000,
        priority_triggered := false }
      1000 ⟨100000000, 400000000, 1000, 1000, 1, true⟩ 0
    w1.highest_priority = some 1000 ∧
    w1.timer_deadline = 250000000 ∧
    w1.timer_deadline ≠ 0 + min (250000000 - (0 - 0)) 100000000) := by
  decide

/-- C7 amended: `update_priority` replaces the recorded priority only when
a priority is already recorded and the new one is strictly higher, and
only in that case, when the new priority also reaches the threshold, is
the timer rearmed to fire after `min(remaining, 100ms)`; when no priority
is recorded the new one is stored with the timer untouched; otherwise
nothing changes; `started_at` and `initial_tx_count` are unchanged in all
cases. -/
theorem C7_update_priority_behaviour (w : EventDriven.SmartCollectionWindow)
    (priority : EventDriven.TransactionPriority)
    (config : EventDriven.CollectionConfig) (now : Nat) :
    (∀ current, w.highest_priority = some current → current < priority →
      (EventDriven.SmartCollectionWindow.update_priority w priority config
          now).highest_priority = some priority ∧
      (config.priority_threshold ≤ priority →
        (EventDriven.SmartCollectionWindow.update_priority w priority config
            now).timer_deadline =
          now + min (w.duration - (now - w.started_at)) 100000000) ∧
      (priority < config.priority_threshold →
        (EventDriven.SmartCollectionWindow.update_priority w priority config
            now).timer_deadline = w.timer_deadline)) ∧
    (w.highest_priority = none →
      EventDriven.SmartCollectionWindow.update_priority w priority config now =
        { w with highest_priority := some priority }) ∧
    (∀ current, w.highest_priority = some current → priority ≤ current →
      EventDriven.SmartCollectionWindow.update_priority w priority config now = w) ∧
    (EventDriven.SmartCollectionWindow.update_priority w priority config
        now).started_at = w.started_at ∧
    (EventDriven.SmartCollectionWindow.update_priority w priority config
        now).initial_tx_count = w.initial_tx_count := by
  refine ⟨?_, ?_, ?_, ?_, ?_⟩
  · intro current hc hlt
    refine ⟨?_, ?_, ?_⟩
    · by_cases ht : config.priority_threshold ≤ priority <;>
        simp [EventDriven.SmartCollectionWindow.update_priority, hc, hlt, ht]
    · intro ht
      simp [EventDriven.SmartCollectionWindow.update_priority, hc, hlt, ht,
        EventDriven.SmartCollectionWindow.elapsed]
    · intro ht
      have ht' : ¬ config.priority_threshold ≤ priority := Nat.not_le.mpr ht
      simp [EventDriven.SmartCollectionWindow.update_priority, hc, hlt, ht']
  · intro hn
    simp [EventDriven.SmartCollectionWindow.update_priority, hn]
  · intro current hc hle
    have h' : ¬ current < priority := Nat.not_lt.mpr hle
    simp [EventDriven.SmartCollectionWindow.update_priority, hc, h']
  · rcases hw : w.highest_priority with _ | current
    · simp [EventDriven.SmartCollectionWindow.update_priority, hw]
    · by_cases hlt : current < priority <;>
        by_cases ht : config.priority_threshold ≤ priority <;>
        simp [EventDriven.SmartCollectionWindow.update_priority, hw, hlt, ht]
  · rcases hw : w.highest_priority with _ | current
    · simp [EventDriven.SmartCollectionWindow.update_priority, hw]
    · by_cases hlt : current < priority <;>
        by_cases ht : config.priority_threshold ≤ priority <;>
        simp [EventDriven.SmartCollectionWindow.update_priority, hw, hlt, ht]

/-- Witness for C7's amended statement: replacement with timer rearm in
the strictly-higher case, and priority recording without a rearm in the
`none` case. -/
theorem C7_update_priority_behaviour_witness :
    ((EventDriven.SmartCollectionWindow.update_priority
      { started_at := 0, duration := 250000000, initial_tx_count := 5,
        highest_priority := some 10, network_load := 0, timer_deadline := 250000000,
        priority_triggered := false }
      1000 ⟨100000000, 400000000, 1000, 1000, 1, true⟩ 0).timer_deadline =
      0 + min (250000000 - (0 - 0)) 100000000) ∧
    (EventDriven.SmartCollectionWindow.update_priority
      { started_at := 0, duration := 250000000, initial_tx_count := 5,
        highest_priority := none, network_load := 0, timer_deadline := 250000000,
        priority_triggered := false }
      1000 ⟨100000000, 400000000, 1000, 1000, 1, true⟩ 0 =
      { started_at := 0, duration := 250000000, initial_tx_count := 5,
        highest_priority := some 1000, network_load := 0, timer_deadline := 250000000,
        priority_triggered := false }) := by
  constructor
  · exact (((C7_update_priority_behaviour
      { started_at := 0, duration := 250000000, initial_tx_count := 5,
        highest_priority := some 10, network_load := 0, timer_deadline := 250000000,
        priority_triggered := false }
      1000 ⟨100000000, 400000000, 1000, 1000, 1, true⟩ 0).1 10 rfl
        (by decide)).2.1 (by decide))
  · exact ((C7_update_priority_behaviour
      { started_at := 0, duration := 250000000, initial_tx_count := 5,
        highest_priority := none, network_load := 0, timer_deadline := 250000000,
        priority_triggered := false }
      1000 ⟨100000000, 400000000, 1000, 1000, 1, true⟩ 0).2.1 rfl)

/-- C1 counterexample: at the default configuration
(`max_batch_size = 1000`), a fresh controller — no active window — given
`PoolReady(1000, none)` with `tx_count = max_batch_size` starts a window
and returns `StartCollectionWindow`, not `ProduceImmediately`: the
batch-size check is only reached when a window is already active. -/
theorem C1_counterexample :
    (let cfg : EventDriven.EventDrivenConfig :=
      ⟨⟨100000000, 400000000, 1000, 9223372036854775807, 1, true⟩, some 3600000,
        true, 10⟩
    let r := (EventDriven.SmartEventDrivenController.new cfg 0).handle_pool_event
      (.PoolReady 1000 none) 0
    cfg.collection.max_batch_size ≤ 1000 ∧
    r.1 = EventDriven.BlockProductionTrigger.StartCollectionWindow ∧
    r.1 ≠ EventDriven.BlockProductionTrigger.ProduceImmediately) := by
  decide

/-- C1 amended: when a collection window is already active, `PoolReady`
with `tx_count ≥ max_batch_size` returns `ProduceImmediately` and clears
the window; with no active window and `tx_count > 0` the controller
instead starts a window and returns `StartCollectionWindow`, even when
`tx_count ≥ max_batch_size`. -/
theorem C1_pool_ready_batch (c : EventDriven.SmartEventDrivenController)
    (tx_count : Nat) (hp : Option EventDriven.TransactionPriority) (now : Nat) :
    (∀ w, c.collection_window = some w →
      c.config.collection.max_batch_size ≤ tx_count →
      (c.handle_pool_event (.PoolReady tx_count hp) now).1 =
        EventDriven.BlockProductionTrigger.ProduceImmediately ∧
      (c.handle_pool_event (.PoolReady tx_count hp) now).2.collection_window = none) ∧
    (c.collection_window = none → 0 < tx_count →
      (c.handle_pool_event (.PoolReady tx_count hp) now).1 =
        EventDriven.BlockProductionTrigger.StartCollectionWindow) := by
  constructor
  · intro w hw hbatch
    have h1 : c.collection_window.isNone = false := by simp [hw]
    constructor <;>
      simp [EventDriven.SmartEventDrivenController.handle_pool_event, h1,
        EventDriven.SmartEventDrivenController.should_produce_immediately, hbatch]
  · intro hw htx
    have h1 : c.collection_window.isNone = true := by simp [hw]
    simp [EventDriven.SmartEventDrivenController.handle_pool_event, h1, htx]

/-- Witness for C1's amended statement at a concrete controller holding an
active window. -/
theorem C1_pool_ready_batch_witness :
    (EventDriven.SmartEventDrivenController.handle_pool_event
      { config := ⟨⟨100000000, 400000000, 1000, 9223372036854775807, 1, true⟩,
          some 3600000, true, 10⟩,
        collection_window := some ⟨0, 250000000, 5, none, 0, 250000000, false⟩,
        empty_block_timer := none, pending_transactions := 5, last_block_time := 0,
        network_load_tracker := ⟨[], 10, 0, 0⟩ }
      (.PoolReady 1000 none) 7).1 =
      EventDriven.BlockProductionTrigger.ProduceImmediately :=
  ((C1_pool_ready_batch
    { config := ⟨⟨100000000, 400000000, 1000, 9223372036854775807, 1, true⟩,
        some 3600000, true, 10⟩,
      collection_window := some ⟨0, 250000000, 5, none, 0, 250000000, false⟩,
      empty_block_timer := none, pending_transactions := 5, last_block_time := 0,
      network_load_tracker := ⟨[], 10, 0, 0⟩ }
    1000 none 7).1 ⟨0, 250000000, 5, none, 0, 250000000, false⟩ rfl (by decide)).1

/-- C8: handling `PoolEmpty` returns `None`, zeroes the pending count and
clears any active window — the whole state change; afterwards any
`check_collection_window` call on a state with no active window returns
`None` and leaves the state unchanged, so no `CollectionWindowExpired` can
fire until some event starts a window again. -/
theorem C8_pool_empty_clears_window (c : EventDriven.SmartEventDrivenController)
    (now : Nat) :
    (c.handle_pool_event EventDriven.PoolEvent.PoolEmpty now =
      (EventDriven.BlockProductionTrigger.None,
        { c with pending_transactions := 0, collection_window := none })) ∧
    (∀ (d : EventDriven.SmartEventDrivenController) (t : Nat),
      d.collection_window = none →
      d.check_collection_window t = (EventDriven.BlockProductionTrigger.None, d)) := by
  constructor
  · rfl
  · intro d t hd
    simp [EventDriven.SmartEventDrivenController.check_collection_window, hd]

/-- Witness for C8: a controller with an active window receives
`PoolEmpty`; a much later expiry check still returns `None`. -/
theorem C8_pool_empty_clears_window_witness :
    (EventDriven.SmartEventDrivenController.check_collection_window
      ((EventDriven.SmartEventDrivenController.handle_pool_event
        { config := ⟨⟨100000000, 400000000, 1000, 9223372036854775807, 1, true⟩,
            some 3600000, true, 10⟩,
          collection_window := some ⟨0, 250000000, 5, none, 0, 250000000, false⟩,
          empty_block_timer := none, pending_transactions := 5, last_block_time := 0,
          network_load_tracker := ⟨[], 10, 0, 0⟩ }
        EventDriven.PoolEvent.PoolEmpty 3).2) 999999999999).1 =
      EventDriven.BlockProductionTrigger.None := by
  have h := C8_pool_empty_clears_window
    { config := ⟨⟨100000000, 400000000, 1000, 9223372036854775807, 1, true⟩,
        some 3600000, true, 10⟩,
      collection_window := some ⟨0, 250000000, 5, none, 0, 250000000, false⟩,
      empty_block_timer := none, pending_transactions := 5, last_block_time := 0,
      network_load_tracker := ⟨[], 10, 0, 0⟩ } 3
  rw [h.2 _ 999999999999 rfl]

theorem Equivocation.mem_keysOf_insertSorted
    (m : List (Nat × List (Equivocation.Header × Equivocation.AuthorityId)))
    (k : Nat) (v : List (Equivocation.Header × Equivocation.AuthorityId)) :
    ∀ x ∈ Equivocation.keysOf (Equivocation.insertSorted m k v),
      x ∈ Equivocation.keysOf m ∨ x = k := by
  induction m with
  | nil =>
    intro x hx
    simp [Equivocation.insertSorted, Equivocation.keysOf] at hx
    exact Or.inr hx
  | cons p rest ih =>
    rcases p with ⟨k0, v0⟩
    intro x hx
    by_cases h1 : k < k0
    · simp only [Equivocation.insertSorted, if_pos h1, Equivocation.keysOf,
        List.map_cons, List.mem_cons] at hx ⊢
      tauto
    · by_cases h2 : k = k0
      · simp only [Equivocation.insertSorted, if_neg h1, if_pos h2,
          Equivocation.keysOf, List.map_cons, List.mem_cons] at hx ⊢
        tauto
      · simp only [Equivocation.insertSorted, if_neg h1, if_neg h2,
          Equivocation.keysOf, List.map_cons, List.mem_cons] at hx ⊢
        rcases hx with hx | hx
        · exact Or.inl (Or.inl hx)
        · rcases ih x hx with hx' | hx'
          · exact Or.inl (Or.inr hx')
          · exact Or.inr hx'

theorem Equivocation.insertSorted_pairwise
    (m : List (Nat × List (Equivocation.Header × Equivocation.AuthorityId)))
    (k : Nat) (v : List (Equivocation.Header × Equivocation.AuthorityId))
    (hs : List.Pairwise (· < ·) (Equivocation.keysOf m)) :
    List.Pairwise (· < ·) (Equivocation.keysOf (Equivocation.insertSorted m k v)) := by
  induction m with
  | nil => simp [Equivocation.insertSorted, Equivocation.keysOf]
  | cons p rest ih =>
    rcases p with ⟨k0, v0⟩
    simp only [Equivocation.keysOf, List.map_cons, List.pairwise_cons] at hs
    by_cases h1 : k < k0
    · simp only [Equivocation.insertSorted, if_pos h1, Equivocation.keysOf,
        List.map_cons, List.pairwise_cons]
      refine ⟨?_, hs⟩
      intro b hb
      rcases List.mem_cons.mp hb with hb | hb
      · omega
      · have := hs.1 b hb
        omega
    · by_cases h2 : k = k0
      · simp only [Equivocation.insertSorted, if_neg h1, if_pos h2,
          Equivocation.keysOf, List.map_cons, List.pairwise_cons]
        subst h2
        exact hs
      · simp only [Equivocation.insertSorted, if_neg h1, if_neg h2,
          Equivocation.keysOf, List.map_cons, List.pairwise_cons]

        refine ⟨?_, ih hs.2⟩
        intro b hb
        rcases Equivocation.mem_keysOf_insertSorted rest k v b hb with hb' | hb'
        · exact hs.1 b hb'
        · omega

theorem Equivocation.insertSorted_length_le
    (m : List (Nat × List (Equivocation.Header × Equivocation.AuthorityId)))
    (k : Nat) (v : List (Equivocation.Header × Equivocation.AuthorityId)) :
    (Equivocation.insertSorted m k v).length ≤ m.length + 1 := by
  induction m with
  | nil => simp [Equivocation.insertSorted]
  | cons p rest ih =>
    rcases p with ⟨k0, v0⟩
    by_cases h1 : k < k0
    · simp [Equivocation.insertSorted, h1]
    · by_cases h2 : k = k0
      · simp [Equivocation.insertSorted, h1, h2]
      · simp only [Equivocation.insertSorted, if_neg h1, if_neg h2, List.length_cons]
        omega

theorem Equivocation.insertSorted_length_of_mem
    (m : List (Nat × List (Equivocation.Header × Equivocation.AuthorityId)))
    (k : Nat) (v : List (Equivocation.Header × Equivocation.AuthorityId))
    (hs : List.Pairwise (· < ·) (Equivocation.keysOf m))
    (hk : k ∈ Equivocation.keysOf m) :
    (Equivocation.insertSorted m k v).length = m.length := by
  induction m with
  | nil => simp [Equivocation.keysOf] at hk
  | cons p rest ih =>
    rcases p with ⟨k0, v0⟩
    simp only [Equivocation.keysOf, List.map_cons, List.pairwise_cons] at hs
    simp only [Equivocation.keysOf, List.map_cons, List.mem_cons] at hk
    by_cases h2 : k = k0
    · have h1 : ¬ k < k0 := by omega
      simp [Equivocation.insertSorted, h1, h2]
    · rcases hk with hk | hk
      · exact absurd hk h2
      · have hlt : k0 < k := hs.1 k hk
        have h1 : ¬ k < k0 := by omega
        simp only [Equivocation.insertSorted, if_neg h1, if_neg h2, List.length_cons]
        rw [ih hs.2 hk]

theorem Equivocation.slotList_insertSorted_self
    (m : List (Nat × List (Equivocation.Header × Equivocation.AuthorityId)))
    (k : Nat) (v : List (Equivocation.Header × Equivocation.AuthorityId)) :
    Equivocation.slotList (Equivocation.insertSorted m k v) k = v := by
  induction m with
  | nil => simp [Equivocation.insertSorted, Equivocation.slotList]
  | cons p rest ih =>
    rcases p with ⟨k0, v0⟩
    by_cases h1 : k < k0
    · simp [Equivocation.insertSorted, h1, Equivocation.slotList]
    · by_cases h2 : k = k0
      · simp [Equivocation.insertSorted, h1, h2, Equivocation.slotList]
      · have h0 : k0 ≠ k := fun hh => h2 hh.symm
        simp [Equivocation.insertSorted, h1, h2, Equivocation.slotList, h0, ih]

theorem Equivocation.slotList_insertSorted_other
    (m : List (Nat × List (Equivocation.Header × Equivocation.AuthorityId)))
    (k s2 : Nat) (v : List (Equivocation.Header × Equivocation.AuthorityId))
    (hne : s2 ≠ k) :
    Equivocation.slotList (Equivocation.insertSorted m k v) s2 =
      Equivocation.slotList m s2 := by
  have hne' : k ≠ s2 := fun hh => hne hh.symm
  induction m with
  | nil => simp [Equivocation.insertSorted, Equivocation.slotList, hne']
  | cons p rest ih =>
    rcases p with ⟨k0, v0⟩
    by_cases h1 : k < k0
    · simp [Equivocation.insertSorted, h1, Equivocation.slotList, hne']
    · by_cases h2 : k = k0
      · subst h2
        simp [Equivocation.insertSorted, h1, Equivocation.slotList, hne']
      · by_cases h0 : k0 = s2
        · subst h0
          simp [Equivocation.insertSorted, h1, h2, Equivocation.slotList]
        · simp [Equivocation.insertSorted, h1, h2, Equivocation.slotList, h0, ih]

theorem Equivocation.mem_keysOf_of_slotList_ne_nil
    (m : List (Nat × List (Equivocation.Header × Equivocation.AuthorityId)))
    (s : Nat) (h : Equivocation.slotList m s ≠ []) :
    s ∈ Equivocation.keysOf m := by
  induction m with
  | nil => simp [Equivocation.slotList] at h
  | cons p rest ih =>
    rcases p with ⟨k0, v0⟩
    simp only [Equivocation.keysOf, List.map_cons, List.mem_cons]
    by_cases h0 : k0 = s
    · exact Or.inl h0.symm
    · simp only [Equivocation.slotList, if_neg h0] at h
      exact Or.inr (ih h)

theorem Equivocation.pairwise_head_le (k0 : Nat) (ks : List Nat)
    (hp : List.Pairwise (· < ·) (k0 :: ks)) :
    ∀ k ∈ k0 :: ks, k0 ≤ k := by
  intro k hk
  rcases List.mem_cons.mp hk with h | h
  · omega
  · have := (List.pairwise_cons.mp hp).1 k h
    omega

theorem Equivocation.findConflict_ne_nil
    (l : List (Equivocation.Header × Equivocation.AuthorityId))
    (h x : Equivocation.Header) (a : Equivocation.AuthorityId)
    (hf : Equivocation.findConflict l h a = some x) : l ≠ [] := by
  intro hl
  subst hl
  simp [Equivocation.findConflict] at hf

theorem Equivocation.pairwise_keysOf_tail
    (m : List (Nat × List (Equivocation.Header × Equivocation.AuthorityId)))
    (hp : List.Pairwise (· < ·) (Equivocation.keysOf m)) :
    List.Pairwise (· < ·) (Equivocation.keysOf m.tail) := by
  cases m with
  | nil => exact hp
  | cons p rest =>
    simp only [Equivocation.keysOf, List.map_cons, List.pairwise_cons] at hp
    exact hp.2

/-- C9: the slot index of the detector holds at most 1000 slot keys: a
fresh detector satisfies the bound, every `check_block` call preserves it
(together with the sortedness of the key list that `BTreeMap` maintains),
and whenever the insertion makes the map exceed 1000 keys the map becomes
the tail of the inserted map — the removed key being its head, which is no
larger than any tracked key, i.e. the numerically smallest. -/
theorem C9_slot_index_bound (cfg : Equivocation.EquivocationConfig)
    (d : Equivocation.EquivocationDetector) (h : Equivocation.Header)
    (s a sess : Nat)
    (hlen : d.slot_blocks.length ≤ 1000)
    (hsorted : List.Pairwise (· < ·) (Equivocation.keysOf d.slot_blocks)) :
    ((Equivocation.EquivocationDetector.new cfg).slot_blocks.length ≤ 1000) ∧
    ((d.check_block h s a sess).2.slot_blocks.length ≤ 1000) ∧
    List.Pairwise (· < ·)
      (Equivocation.keysOf (d.check_block h s a sess).2.slot_blocks) ∧
    (∀ k0 ks,
      Equivocation.keysOf (Equivocation.insertSorted d.slot_blocks s
        (Equivocation.slotList d.slot_blocks s ++ [(h, a)])) = k0 :: ks →
      1000 < (k0 :: ks).length →
      (d.check_block h s a sess).2.slot_blocks =
        (Equivocation.insertSorted d.slot_blocks s
          (Equivocation.slotList d.slot_blocks s ++ [(h, a)])).tail ∧
      ∀ k ∈ k0 :: ks, k0 ≤ k) := by
  have hlenkeys : ∀ (m : List (Nat × List (Equivocation.Header ×
      Equivocation.AuthorityId))), (Equivocation.keysOf m).length = m.length := by
    intro m
    simp [Equivocation.keysOf]
  refine ⟨by simp [Equivocation.EquivocationDetector.new], ?_, ?_, ?_⟩
  · rcases hconf : Equivocation.findConflict (Equivocation.slotList d.slot_blocks s)
        h a with _ | x
    · have hm1 := Equivocation.insertSorted_length_le d.slot_blocks s
        (Equivocation.slotList d.slot_blocks s ++ [(h, a)])
      simp only [Equivocation.EquivocationDetector.check_block, hconf]
      split
      · simp only [List.length_tail]
        omega
      · omega
    · simp [Equivocation.EquivocationDetector.check_block, hconf, hlen]
  · rcases hconf : Equivocation.findConflict (Equivocation.slotList d.slot_blocks s)
        h a with _ | x
    · have hm1 := Equivocation.insertSorted_pairwise d.slot_blocks s
        (Equivocation.slotList d.slot_blocks s ++ [(h, a)]) hsorted
      simp only [Equivocation.EquivocationDetector.check_block, hconf]
      split
      · exact Equivocation.pairwise_keysOf_tail _ hm1
      · exact hm1
    · simp [Equivocation.EquivocationDetector.check_block, hconf, hsorted]
  · intro k0 ks hkeys hgt
    rcases hconf : Equivocation.findConflict (Equivocation.slotList d.slot_blocks s)
        h a with _ | x
    · have hm1len : (Equivocation.insertSorted d.slot_blocks s
          (Equivocation.slotList d.slot_blocks s ++ [(h, a)])).length =
          (k0 :: ks).length := by
        rw [← hlenkeys, hkeys]
      have hcond : 1000 < (Equivocation.insertSorted d.slot_blocks s
          (Equivocation.slotList d.slot_blocks s ++ [(h, a)])).length := by
        omega
      constructor
      · simp [Equivocation.EquivocationDetector.check_block, hconf, hcond]
      · have hp := Equivocation.insertSorted_pairwise d.slot_blocks s
          (Equivocation.slotList d.slot_blocks s ++ [(h, a)]) hsorted
        rw [hkeys] at hp
        exact Equivocation.pairwise_head_le k0 ks hp
    · exfalso
      have hne := Equivocation.findConflict_ne_nil _ h x a hconf
      have hks := Equivocation.mem_keysOf_of_slotList_ne_nil d.slot_blocks s hne
      have hm1 := Equivocation.insertSorted_length_of_mem d.slot_blocks s
        (Equivocation.slotList d.slot_blocks s ++ [(h, a)]) hsorted hks
      have hm1len : (Equivocation.insertSorted d.slot_blocks s
          (Equivocation.slotList d.slot_blocks s ++ [(h, a)])).length =
          (k0 :: ks).length := by
        rw [← hlenkeys, hkeys]
      simp only [List.length_cons] at hm1len hgt
      omega

/-- Witness for C9 on a fresh detector and a first observed block. -/
theorem C9_slot_index_bound_witness :
    ((Equivocation.EquivocationDetector.new ⟨false, 100, 10, 1000⟩).slot_blocks.length
      ≤ 1000) ∧
    (((Equivocation.EquivocationDetector.new ⟨false, 100, 10, 1000⟩).check_block
      ⟨1, 1⟩ 5 0 0).2.slot_blocks.length ≤ 1000) := by
  have h9 := C9_slot_index_bound ⟨false, 100, 10, 1000⟩
    (Equivocation.EquivocationDetector.new ⟨false, 100, 10, 1000⟩) ⟨1, 1⟩ 5 0 0
    (by decide) (by decide)
  exact ⟨h9.1, h9.2.1⟩

/-- Ascending map with `n` slot keys starting at `k`, each holding one
recorded block: a reachable shape of the detector's slot index. -/
def Equivocation.rampFrom (k : Nat) :
    Nat → List (Nat × List (Equivocation.Header × Equivocation.AuthorityId))
  | 0 => []
  | n + 1 => (k, [(⟨1, 1⟩, 0)]) :: Equivocation.rampFrom (k + 1) n

set_option maxRecDepth 100000 in
/-- C10 counterexample: the claim quantifies over every `check_block` call
returning `none`, but when the map already tracks 1000 slots (keys 1..1000)
and a block for the new, smallest slot 0 arrives, the call returns `none`
yet slot 0's list ends up empty — the freshly appended pair is immediately
evicted as the oldest slot — so the call does not leave the pair appended. -/
theorem C10_counterexample :
    (let d : Equivocation.EquivocationDetector :=
      { slot_blocks := Equivocation.rampFrom 1 1000,
        session_equivocations := Equivocation.emptySession,
        config := ⟨false, 100, 10, 1000⟩ }
    let r := d.check_block ⟨1, 5⟩ 0 3 0
    r.1 = none ∧
    Equivocation.slotList r.2.slot_blocks 0 ≠
      Equivocation.slotList d.slot_blocks 0 ++ [(⟨1, 5⟩, 3)]) := by
  decide

/-- C10 amended: when the submitted slot is already tracked (in particular
whenever the identical pair was recorded before, so the call cannot evict)
and no conflicting header from the same author is stored, `check_block`
returns `none` and its whole effect is to append the pair to that slot's
list: all other slots' lists, the session tables and the configuration are
unchanged, so re-observing the same block is not idempotent; when the slot
is new, the appended entry can instead be dropped by the 1000-slot
eviction. -/
theorem C10_check_block_appends (d : Equivocation.EquivocationDetector)
    (h : Equivocation.Header) (s a sess : Nat)
    (hmem : (h, a) ∈ Equivocation.slotList d.slot_blocks s)
    (hconf : Equivocation.findConflict (Equivocation.slotList d.slot_blocks s) h a
      = none)
    (hlen : d.slot_blocks.length ≤ 1000)
    (hsorted : List.Pairwise (· < ·) (Equivocation.keysOf d.slot_blocks)) :
    (d.check_block h s a sess).1 = none ∧
    Equivocation.slotList (d.check_block h s a sess).2.slot_blocks s =
      Equivocation.slotList d.slot_blocks s ++ [(h, a)] ∧
    (∀ s2, s2 ≠ s →
      Equivocation.slotList (d.check_block h s a sess).2.slot_blocks s2 =
        Equivocation.slotList d.slot_blocks s2) ∧
    (d.check_block h s a sess).2.session_equivocations = d.session_equivocations ∧
    (d.check_block h s a sess).2.config = d.config := by
  have hne : Equivocation.slotList d.slot_blocks s ≠ [] := by
    intro hl
    rw [hl] at hmem
    simp at hmem
  have hks : s ∈ Equivocation.keysOf d.slot_blocks :=
    Equivocation.mem_keysOf_of_slotList_ne_nil _ _ hne
  have hm1 : (Equivocation.insertSorted d.slot_blocks s
      (Equivocation.slotList d.slot_blocks s ++ [(h, a)])).length =
      d.slot_blocks.length :=
    Equivocation.insertSorted_length_of_mem _ _ _ hsorted hks
  have hcond : ¬ 1000 < (Equivocation.insertSorted d.slot_blocks s
      (Equivocation.slotList d.slot_blocks s ++ [(h, a)])).length := by
    omega
  refine ⟨?_, ?_, ?_, ?_, ?_⟩
  · simp [Equivocation.EquivocationDetector.check_block, hconf]
  · simp [Equivocation.EquivocationDetector.check_block, hconf, hcond,
      Equivocation.slotList_insertSorted_self]
  · intro s2 hs2
    simp [Equivocation.EquivocationDetector.check_block, hconf, hcond,
      Equivocation.slotList_insertSorted_other d.slot_blocks s s2 _ hs2]
  · simp [Equivocation.EquivocationDetector.check_block, hconf, hcond]
  · simp [Equivocation.EquivocationDetector.check_block, hconf, hcond]

/-- Witness for C10's amended statement: re-submitting the identical
recorded pair grows the slot's list to two copies of it. -/
theorem C10_check_block_appends_witness :
    Equivocation.slotList
      ((Equivocation.EquivocationDetector.check_block
        ⟨[(1, [(⟨1, 1⟩, 7)])], Equivocation.emptySession, ⟨false, 100, 10, 1000⟩⟩
        ⟨1, 1⟩ 1 7 0).2).slot_blocks 1 = [(⟨1, 1⟩, 7), (⟨1, 1⟩, 7)] := by
  have h := C10_check_block_appends
    ⟨[(1, [(⟨1, 1⟩, 7)])], Equivocation.emptySession, ⟨false, 100, 10, 1000⟩⟩
    ⟨1, 1⟩ 1 7 0 (by decide) (by decide) (by decide) (by decide)
  rw [h.2.1]
  rfl
